import Mathlib

/-!
Shallow embedding of the `vasp` keyword-validation layer
(`src/vasp/validate.py`) together with theorems checking the
natural-language specification against it.

Python values are modelled by the inductive type `Vasp.Value`; Python
`float` payloads are modelled as exact rationals (the validators only
compare floats for equality and order against small constants, and never
perform arithmetic on them, so no rounding behaviour is observable).
Python `bool` is a subclass of `int`, so `isinstance(x, int)` is true for
booleans and `True == 1`, `False == 0`; the embedding reproduces this.
Each validator `f(calc, val)` raises `AssertionError` (or a `TypeError` /
`AttributeError` from an illegal primitive operation) to signal rejection;
this is modelled by the result type `Vasp.VRes`.  A validator call is
modelled as a function from the context and the value to a `Vasp.VOut`
record carrying the advisory messages emitted during the call, the
result, and the context as it stands after the call.
-/

namespace Vasp

/-- Modelled from the spec: an atom of the external atomistic-simulation
library (ASE); the validators only ever read an atom's chemical symbol
(`a.symbol`) and the length of atom lists. -/
structure Atom where
  symbol : String
deriving DecidableEq, Repr

/-- Embedding of the Python values the validators inspect: `None`,
booleans, ints, floats (exact rationals, see the file comment), strings,
lists, dicts (ordered association lists with string keys, matching every
dict the validators ever receive), and ASE `Atoms` objects. -/
inductive Value where
  | none
  | bool (b : Bool)
  | int (n : Int)
  | float (q : ℚ)
  | str (s : String)
  | list (xs : List Value)
  | dict (xs : List (String × Value))
  | atomsObj (a : List Atom)

/-- Numeric view used by Python comparisons: booleans and ints and floats
all live in one numeric tower (`True == 1`, `False == 0`). -/
def toRat? : Value → Option ℚ
  | .bool b => some (if b then 1 else 0)
  | .int n => some (n : ℚ)
  | .float q => some q
  | _ => Option.none

mutual

/-- Python `==` on the embedded values: numeric values compare through the
numeric tower, strings and `None` structurally, lists and dicts
elementwise. -/
def pyEq : Value → Value → Bool
  | .none, .none => true
  | .str a, .str b => a == b
  | .list a, .list b => pyEqList a b
  | .dict a, .dict b => pyEqAList a b
  | .atomsObj a, .atomsObj b => a == b
  | a, b =>
    match toRat? a, toRat? b with
    | some x, some y => x == y
    | _, _ => false

/-- Pointwise Python `==` on lists. -/
def pyEqList : List Value → List Value → Bool
  | [], [] => true
  | a :: as, b :: bs => pyEq a b && pyEqList as bs
  | _, _ => false

/-- Pointwise Python `==` on dict entries (in entry order). -/
def pyEqAList : List (String × Value) → List (String × Value) → Bool
  | [], [] => true
  | (k, a) :: as, (l, b) :: bs => k == l && pyEq a b && pyEqAList as bs
  | _, _ => false

end

/-- Python `a < b`: defined between two numbers or two strings; every
other combination raises `TypeError` (modelled as `Option.none`).  No
validator ever compares two lists, so the list order is not needed. -/
def pyLt? : Value → Value → Option Bool
  | .str a, .str b => some (decide (a < b))
  | a, b =>
    match toRat? a, toRat? b with
    | some x, some y => some (decide (x < y))
    | _, _ => Option.none

/-- Python `a > b`, i.e. `b < a`. -/
def pyGt? (a b : Value) : Option Bool := pyLt? b a

/-- Python `len(v)`: defined for strings, lists, dicts and `Atoms`;
`TypeError` (`Option.none`) otherwise. -/
def pyLen? : Value → Option Nat
  | .str s => some s.length
  | .list xs => some xs.length
  | .dict xs => some xs.length
  | .atomsObj a => some a.length
  | _ => Option.none

/-- Python `v.lower()`: defined for strings only, `AttributeError`
(`Option.none`) otherwise. -/
def pyLower? : Value → Option String
  | .str s => some s.toLower
  | _ => Option.none

/-- Python `x in l` for a literal list `l` (membership via `==`). -/
def pyMem (v : Value) (l : List Value) : Bool := l.any (fun w => pyEq v w)

/-- Python `isinstance(v, int)`: true for ints and booleans (`bool` is a
subclass of `int`). -/
def isinstance_int : Value → Bool
  | .int _ => true
  | .bool _ => true
  | _ => false

/-- Python `isinstance(v, float)`. -/
def isinstance_float : Value → Bool
  | .float _ => true
  | _ => false

/-- Python `isinstance(v, str)` (also `ase.utils.basestring`, which is
`str` under Python 3). -/
def isinstance_str : Value → Bool
  | .str _ => true
  | _ => false

/-- Python `isinstance(v, list)`. -/
def isinstance_list : Value → Bool
  | .list _ => true
  | _ => false

/-- Python `isinstance(v, dict)`. -/
def isinstance_dict : Value → Bool
  | .dict _ => true
  | _ => false

/-- Python `isinstance(v, ase.atoms.Atoms)`. -/
def isinstance_atoms : Value → Bool
  | .atomsObj _ => true
  | _ => false

/-- Modelled from the spec: the context (`calc`) object is the calculator
defined outside src/; per the spec (sections 3 and 6) it exposes a
readable parameter mapping and derived quantities (atoms, NEB image list,
valence-electron count) that the validators query.  The parameter mapping
is an association list with distinct string keys, matching a Python
dict. -/
structure Calc where
  parameters : List (String × Value)
  atoms : List Atom
  neb : List (List Atom)
  valence_electrons : ℚ

/-- Modelled from the spec: `c.get_atoms()`, the accessor for the
context's atomic structure. -/
def Calc.get_atoms (c : Calc) : List Atom := c.atoms

/-- Modelled from the spec: `c.get_valence_electrons()`, the derived
valence-electron count of the context. -/
def Calc.get_valence_electrons (c : Calc) : ℚ := c.valence_electrons

/-- Result of one validator call: it either returns normally (`pass`) or
raises (`fail`), carrying the assertion or exception message. -/
inductive VRes where
  | pass
  | fail (msg : String)
deriving DecidableEq, Repr

/-- Mirror of `assert c, msg`. -/
def vres (c : Bool) (msg : String) : VRes :=
  if c then .pass else .fail msg

/-- Observable outcome of one validator call: the advisory messages
emitted during the call (prints or warnings), the result, and the context
as it stands after the call. -/
structure VOut where
  warnings : List String
  res : VRes
  calcAfter : Calc

/-- Whether the call accepted the value. -/
def VOut.ok? (o : VOut) : Bool :=
  match o.res with
  | .pass => true
  | .fail _ => false

/-- Shape of every rule in `validate.py`: `func(calc, val)`. -/
abbrev Validator := Calc → Value → VOut

/-- Literal list of Python ints. -/
def ints (l : List Int) : List Value := l.map Value.int

/-- Literal Python list `[True, False]`. -/
def boolsTF : List Value := [Value.bool true, Value.bool false]

namespace Validate

/-- Rule `algo`: the value must be a string whose lowercasing lies in the
fixed algorithm list (compared case-insensitively). -/
def algo : Validator := fun c val =>
  ⟨[],
   (match val with
    | .str s =>
      vres ((["Normal", "VeryFast", "Fast", "Conjugate", "All", "Damped",
              "Subrot", "Eigenval", "None", "Nothing", "CHI",
              "GW0", "GW", "scGW0", "scGW"].map String.toLower).contains
              s.toLower)
        "algo value is not in the allowed set"
    | _ => .fail "algo must be a string"),
   c⟩

/-- Rule `atoms`: the value must be an ASE `Atoms` object or a list. -/
def atoms : Validator := fun c val =>
  ⟨[], vres (isinstance_atoms val || isinstance_list val)
        "atoms must be an Atoms object or a list", c⟩

/-- Rule `dipol`: the value must be a list. -/
def dipol : Validator := fun c val =>
  ⟨[], vres (isinstance_list val) "dipol should be a list.", c⟩

/-- Rule `eb_k`: the value must be a float. -/
def eb_k : Validator := fun c val =>
  ⟨[], vres (isinstance_float val) "eb_k must be a float", c⟩

/-- Rule `ediff`: the value must be a float or equal to 0. -/
def ediff : Validator := fun c val =>
  ⟨[], vres (isinstance_float val || pyEq val (.int 0))
        "ediff must be a float or 0", c⟩

/-- Rule `ediffg`: the value must be a float or equal to 0. -/
def ediffg : Validator := fun c val =>
  ⟨[], vres (isinstance_float val || pyEq val (.int 0))
        "ediffg must be a float or 0", c⟩

/-- Rule `efield`: the value must be a float or an int. -/
def efield : Validator := fun c val =>
  ⟨[], vres (isinstance_float val || isinstance_int val)
        "efield must be a float or int", c⟩

/-- Rule `encut`: first `assert val > 0` (which raises `TypeError` on a
non-number), then the value must be an int or float. -/
def encut : Validator := fun c val =>
  ⟨[],
   (match pyGt? val (.int 0) with
    | Option.none => .fail "TypeError: unorderable types"
    | some g =>
      if g then
        vres (isinstance_int val || isinstance_float val)
          "encut should be an int or float."
      else .fail "encut must be greater than zero."),
   c⟩

/-- Rule `gamma`: the value must be a list of length 3. -/
def gamma : Validator := fun c val =>
  ⟨[],
   (match val with
    | .list xs => vres (xs.length == 3) "gamma must have length 3"
    | _ => .fail "gamma must be a list"),
   c⟩

/-- Rule `gga`: the value must be a string in the fixed functional list
(compared case-sensitively). -/
def gga : Validator := fun c val =>
  ⟨[],
   (match val with
    | .str s =>
      vres (["91", "PE", "RP", "AM", "PS",
             "RE", "OR", "BO", "MK", "ML", "BF", "B3"].contains s)
        "gga value is not in the allowed set"
    | _ => .fail "gga must be a string"),
   c⟩

/-- Rule `ialgo`: prints a deprecation advisory unconditionally (before
its assertions), then the value must be an int in the enumerated set. -/
def ialgo : Validator := fun c val =>
  ⟨["You are advised to use the algo key instead of ialgo."],
   (if isinstance_int val then
      vres (pyMem val (ints [-1, 2, 3, 4, 5, 6, 7, 8,
                             15, 16, 17, 18, 28, 38,
                             44, 45, 46, 47, 48,
                             53, 54, 55, 56, 57, 58]))
        "ialgo value is not in the allowed set"
    else .fail "ialgo must be an int"),
   c⟩

/-- Rule `ibrion`: the value must equal a member of the enumerated set. -/
def ibrion : Validator := fun c val =>
  ⟨[], vres (pyMem val (ints [-1, 0, 1, 2, 3, 5, 6, 7, 8, 44]))
        "ibrion value is not in the allowed set", c⟩

/-- Rule `icharg`: the value must be an int. -/
def icharg : Validator := fun c val =>
  ⟨[], vres (isinstance_int val) "icharg must be an int", c⟩

/-- Rule `idipol`: the value must equal a member of the enumerated set. -/
def idipol : Validator := fun c val =>
  ⟨[], vres (pyMem val (ints [1, 2, 3, 4]))
        "idipol value is not in the allowed set", c⟩

/-- Rule `images`: the value must be an int equal to the number of NEB
images of the context minus two. -/
def images : Validator := fun c val =>
  ⟨[],
   (if isinstance_int val then
      vres (pyEq val (.int ((c.neb.length : Int) - 2)))
        "images must equal len(calc.neb) - 2"
    else .fail "images must be an int"),
   c⟩

/-- Rule `isif`: the value must equal a member of the enumerated set. -/
def isif : Validator := fun c val =>
  ⟨[], vres (pyMem val (ints [0, 1, 2, 3, 4, 5, 6, 7]))
        "isif value is not in the allowed set", c⟩

/-- Rule `ismear`: the value must equal a member of the enumerated set. -/
def ismear : Validator := fun c val =>
  ⟨[], vres (pyMem val (ints [-5, -4, -3, -2, -1, 0, 1, 2]))
        "ismear value is not in the allowed set", c⟩

/-- Rule `ispin`: the value must equal 1 or 2; if it equals 2, the
parameter `magmom` must be present and `len` of it must equal the atom
count of the context (`len` raises `TypeError` on an unsized value). -/
def ispin : Validator := fun c val =>
  ⟨[],
   (if pyMem val (ints [1, 2]) then
      if pyEq val (.int 2) then
        match c.parameters.lookup "magmom" with
        | Option.none => .fail "magmom is not set."
        | some m =>
          match pyLen? m with
          | Option.none => .fail "TypeError: object has no len"
          | some n =>
            vres (n == c.get_atoms.length) "len(magmom) != len(atoms)"
      else .pass
    else .fail "ispin should be 1 or 2"),
   c⟩

/-- Rule `isym`: the value must equal a member of the enumerated set. -/
def isym : Validator := fun c val =>
  ⟨[], vres (pyMem val (ints [-1, 0, 1, 2, 3]))
        "isym value is not in the allowed set", c⟩

/-- Rule `ivdw`: the value must equal a member of the enumerated set. -/
def ivdw : Validator := fun c val =>
  ⟨[], vres (pyMem val (ints [0, 1, 10, 11, 12, 2, 21, 202, 4]))
        "ivdw value is not in the allowed set", c⟩

/-- Rule `ldau`: the value must equal `True`, `False` or `None`. -/
def ldau : Validator := fun c val =>
  ⟨[], vres (pyMem val [Value.bool true, Value.bool false, Value.none])
        "ldau must be True, False or None", c⟩

/-- Rule `ldau_luj`: the value must be a dict whose key count equals the
number of distinct chemical symbols among the atoms of the context. -/
def ldau_luj : Validator := fun c val =>
  ⟨[],
   (match val with
    | .dict entries =>
      vres (entries.length == ((c.get_atoms.map Atom.symbol).dedup).length)
        "key count of ldau_luj does not equal the number of species"
    | _ => .fail "ldau_luj must be a dict"),
   c⟩

/-- Rule `ldauprint`: the value must equal a member of the enumerated
set. -/
def ldauprint : Validator := fun c val =>
  ⟨[], vres (pyMem val (ints [0, 1, 2]))
        "ldauprint value is not in the allowed set", c⟩

/-- Rule `ldautype`: the body of the source function is only its
docstring, so the rule performs no check at all. -/
def ldautype : Validator := fun c _val =>
  ⟨[], .pass, c⟩

/-- Rule `lmaxmix`: the value must equal a member of the enumerated
set. -/
def lmaxmix : Validator := fun c val =>
  ⟨[], vres (pyMem val (ints [2, 4, 6]))
        "lmaxmix value is not in the allowed set", c⟩

/-- Rule `kpts`: the value must be a list. -/
def kpts : Validator := fun c val =>
  ⟨[], vres (isinstance_list val) "kpts should be a list.", c⟩

/-- Rule `kpts_nintersections`: the value must be an int. -/
def kpts_nintersections : Validator := fun c val =>
  ⟨[], vres (isinstance_int val) "kpts_nintersections must be an int", c⟩

/-- Rule `kspacing`: the value must be a float. -/
def kspacing : Validator := fun c val =>
  ⟨[], vres (isinstance_float val) "kspacing must be a float", c⟩

/-- Rule `lcharg`: the value must equal `True` or `False`. -/
def lcharg : Validator := fun c val =>
  ⟨[], vres (pyMem val boolsTF) "lcharg must be True or False", c⟩

/-- Rule `ldipol`: the value must equal `True` or `False`. -/
def ldipol : Validator := fun c val =>
  ⟨[], vres (pyMem val boolsTF) "ldipol must be True or False", c⟩

/-- Rule `lorbit`: first `if val < 10` (which raises `TypeError` on a
non-number, non-string value); inside that branch the parameter `rwigs`
must be present; finally the value must be an int. -/
def lorbit : Validator := fun c val =>
  ⟨[],
   (match pyLt? val (.int 10) with
    | Option.none => .fail "TypeError: unorderable types"
    | some lt =>
      if lt then
        if (c.parameters.lookup "rwigs").isSome then
          vres (isinstance_int val) "lorbit must be an int"
        else .fail "rwigs is not in parameters"
      else vres (isinstance_int val) "lorbit must be an int"),
   c⟩

/-- Rule `lsol`: the value must equal `True` or `False`. -/
def lsol : Validator := fun c val =>
  ⟨[], vres (pyMem val boolsTF) "lsol must be True or False", c⟩

/-- Rule `lreal`: the value must equal `True`, `False` or one of the
strings of the enumerated set. -/
def lreal : Validator := fun c val =>
  ⟨[], vres (pyMem val [Value.bool true, Value.bool false,
                        Value.str "On", Value.str "Auto",
                        Value.str "O", Value.str "A"])
        "lreal value is not in the allowed set", c⟩

/-- Rule `lvtot`: the value must equal `True` or `False`. -/
def lvtot : Validator := fun c val =>
  ⟨[], vres (pyMem val boolsTF) "lvtot must be True or False", c⟩

/-- Rule `lvhar`: the value must equal `True` or `False`. -/
def lvhar : Validator := fun c val =>
  ⟨[], vres (pyMem val boolsTF) "lvhar must be True or False", c⟩

/-- Rule `lwave`: the value must equal `True` or `False`. -/
def lwave : Validator := fun c val =>
  ⟨[], vres (pyMem val boolsTF) "lwave must be True or False", c⟩

/-- Rule `magmom`: the value must be a list whose length equals the atom
count of the context (read from the `calc.atoms` attribute). -/
def magmom : Validator := fun c val =>
  ⟨[],
   (match val with
    | .list xs =>
      vres (xs.length == c.atoms.length) "len of magmom must equal len of atoms"
    | _ => .fail "magmom should be a list"),
   c⟩

/-- Rule `maxmix`: the value must be an int. -/
def maxmix : Validator := fun c val =>
  ⟨[], vres (isinstance_int val) "maxmix must be an int", c⟩

/-- Rule `nbands`: the value must be an int greater than half the
valence-electron count of the context (Python true division). -/
def nbands : Validator := fun c val =>
  ⟨[],
   (if isinstance_int val then
      match pyGt? val (.float (c.get_valence_electrons / 2)) with
      | Option.none => .fail "TypeError: unorderable types"
      | some g => vres g "nbands is less than half the valence electrons"
    else .fail "nbands must be an int"),
   c⟩

/-- Rule `ncore`: the value must be an int. -/
def ncore : Validator := fun c val =>
  ⟨[], vres (isinstance_int val) "ncore must be an int", c⟩

/-- Rule `nelm`: the value must be an int. -/
def nelm : Validator := fun c val =>
  ⟨[], vres (isinstance_int val) "nelm must be an int", c⟩

/-- Rule `nupdown`: the value must be an int or a float. -/
def nupdown : Validator := fun c val =>
  ⟨[], vres (isinstance_int val || isinstance_float val)
        "nupdown must be an int or float", c⟩

/-- Rule `nsim`: the value must be an int. -/
def nsim : Validator := fun c val =>
  ⟨[], vres (isinstance_int val) "nsim must be an int", c⟩

/-- Rule `nsw`: the value must be an int. -/
def nsw : Validator := fun c val =>
  ⟨[], vres (isinstance_int val) "nsw must be an int", c⟩

/-- Rule `potim`: the value must be a float. -/
def potim : Validator := fun c val =>
  ⟨[], vres (isinstance_float val) "potim must be a float", c⟩

/-- Rule `pp`: the value must equal a member of the enumerated string
set. -/
def pp : Validator := fun c val =>
  ⟨[], vres (pyMem val [Value.str "PBE", Value.str "LDA", Value.str "GGA"])
        "pp value is not in the allowed set", c⟩

/-- Rule `prec`: `val.lower()` (which raises `AttributeError` on a
non-string) must lie in the enumerated set. -/
def prec : Validator := fun c val =>
  ⟨[],
   (match pyLower? val with
    | Option.none => .fail "AttributeError: value has no attribute lower"
    | some s =>
      vres (["low", "medium", "high", "normal",
             "accurate", "single"].contains s)
        "prec value is not in the allowed set"),
   c⟩

/-- Rule `reciprocal`: the value must equal `True` or `False`. -/
def reciprocal : Validator := fun c val =>
  ⟨[], vres (pyMem val boolsTF) "reciprocal must be True or False", c⟩

/-- Rule `rwigs`: the value must be a dict, and the parameter `lorbit`
(defaulting to 0) must be less than 10. -/
def rwigs : Validator := fun c val =>
  ⟨[],
   (if isinstance_dict val then
      match pyLt? ((c.parameters.lookup "lorbit").getD (.int 0))
              (.int 10) with
      | Option.none => .fail "TypeError: unorderable types"
      | some lt => vres lt "lorbit >= 10, rwigs is ignored."
    else .fail "rwigs must be a dict"),
   c⟩

/-- Unpacking `s, suffix = entry` of one `setups` entry: a two-element
list (Python tuples are modelled as lists) or a two-character string
unpacks; anything else raises.  Other two-element iterables cannot appear
as embedded values. -/
def unpack2 : Value → Option (Value × Value)
  | .list [a, b] => some (a, b)
  | .str s =>
    match s.toList with
    | [c1, c2] => some (.str c1.toString, .str c2.toString)
    | _ => Option.none
  | _ => Option.none

/-- Loop body of `setups`: every entry must unpack into a pair whose
first component is an int or string and whose second component is a
string. -/
def setupsCheck : List Value → VRes
  | [] => .pass
  | x :: rest =>
    match unpack2 x with
    | Option.none => .fail "cannot unpack a setups entry"
    | some (s, sfx) =>
      if isinstance_int s || isinstance_str s then
        if isinstance_str sfx then setupsCheck rest
        else .fail "setups second component must be a string"
      else .fail "setups first component must be an int or string"

/-- Rule `setups`: the value must be a list of (symbol-or-index, string
suffix) pairs. -/
def setups : Validator := fun c val =>
  ⟨[],
   (match val with
    | .list xs => setupsCheck xs
    | _ => .fail "setups must be a list"),
   c⟩

/-- Rule `sigma`: the value must be a float greater than 0. -/
def sigma : Validator := fun c val =>
  ⟨[],
   (if isinstance_float val then
      match pyGt? val (.int 0) with
      | Option.none => .fail "TypeError: unorderable types"
      | some g => vres g "sigma must be positive"
    else .fail "sigma must be a float"),
   c⟩

/-- Advisory messages of `spring`: emitted only after the assertion has
passed, and only when the parameter `ibrion` (absent counts) is not equal
to 1 or 3. -/
def springWarnings (c : Calc) (val : Value) : List String :=
  if isinstance_int val || isinstance_float val then
    match c.parameters.lookup "ibrion" with
    | Option.none => ["ibrion should be 1 or 3."]
    | some w => if pyMem w (ints [1, 3]) then [] else ["ibrion should be 1 or 3."]
  else []

/-- Rule `spring`: the value must be an int or float; additionally a
non-fatal warning is emitted when the `ibrion` parameter is not 1 or
3. -/
def spring : Validator := fun c val =>
  ⟨springWarnings c val,
   vres (isinstance_int val || isinstance_float val)
     "spring must be an int or float",
   c⟩

/-- Modelled from the spec: the key list of `vasp.Vasp.xc_defaults` is
defined outside src/ (in the calculator module); the spec only requires
it to be a fixed enumerated set of functional names, compared
case-insensitively.  The claims settled here do not depend on the exact
key list, only on it being a fixed list. -/
def xc_defaults_keys : List String :=
  ["lda", "gga", "pbe", "pbesol", "revpbe", "rpbe", "am05",
   "pbe0", "hse03", "hse06", "b3lyp", "hf",
   "optpbe-vdw", "optb88-vdw", "optb86b-vdw", "vdw-df2", "beef-vdw"]

/-- Rule `xc`: `val.lower()` (which raises `AttributeError` on a
non-string) must be a key of `vasp.Vasp.xc_defaults`. -/
def xc : Validator := fun c val =>
  ⟨[],
   (match pyLower? val with
    | Option.none => .fail "AttributeError: value has no attribute lower"
    | some s => vres (xc_defaults_keys.contains s) "xc is not in the keys"),
   c⟩

end Validate

/-- The validator registry: every rule function of the module
`vasp.validate`, keyed by its name, in reflection (`dir`, i.e.
alphabetical) order.  The two introspection helpers `keywords` and
`keyword_alist` take no `(calc, val)` arguments and are not rules. -/
def registry : List (String × Validator) :=
  [("algo", Validate.algo),
   ("atoms", Validate.atoms),
   ("dipol", Validate.dipol),
   ("eb_k", Validate.eb_k),
   ("ediff", Validate.ediff),
   ("ediffg", Validate.ediffg),
   ("efield", Validate.efield),
   ("encut", Validate.encut),
   ("gamma", Validate.gamma),
   ("gga", Validate.gga),
   ("ialgo", Validate.ialgo),
   ("ibrion", Validate.ibrion),
   ("icharg", Validate.icharg),
   ("idipol", Validate.idipol),
   ("images", Validate.images),
   ("isif", Validate.isif),
   ("ismear", Validate.ismear),
   ("ispin", Validate.ispin),
   ("isym", Validate.isym),
   ("ivdw", Validate.ivdw),
   ("kpts", Validate.kpts),
   ("kpts_nintersections", Validate.kpts_nintersections),
   ("kspacing", Validate.kspacing),
   ("lcharg", Validate.lcharg),
   ("ldau", Validate.ldau),
   ("ldau_luj", Validate.ldau_luj),
   ("ldauprint", Validate.ldauprint),
   ("ldautype", Validate.ldautype),
   ("ldipol", Validate.ldipol),
   ("lmaxmix", Validate.lmaxmix),
   ("lorbit", Validate.lorbit),
   ("lreal", Validate.lreal),
   ("lsol", Validate.lsol),
   ("lvhar", Validate.lvhar),
   ("lvtot", Validate.lvtot),
   ("lwave", Validate.lwave),
   ("magmom", Validate.magmom),
   ("maxmix", Validate.maxmix),
   ("nbands", Validate.nbands),
   ("ncore", Validate.ncore),
   ("nelm", Validate.nelm),
   ("nsim", Validate.nsim),
   ("nsw", Validate.nsw),
   ("nupdown", Validate.nupdown),
   ("potim", Validate.potim),
   ("pp", Validate.pp),
   ("prec", Validate.prec),
   ("reciprocal", Validate.reciprocal),
   ("rwigs", Validate.rwigs),
   ("setups", Validate.setups),
   ("sigma", Validate.sigma),
   ("spring", Validate.spring),
   ("xc", Validate.xc)]

/-- Names of all function-typed members of the module `vasp.validate` in
`dir()` (alphabetical) order: the 53 rules plus the two introspection
helpers `keyword_alist` and `keywords`.  The imported members (`types`,
`ase`, `warnings` are modules, `basestring` is the class `str`) are not
function-typed and are excluded by the reflection filter. -/
def moduleFunctionNames : List String :=
  ["algo", "atoms", "dipol", "eb_k", "ediff", "ediffg", "efield", "encut",
   "gamma", "gga", "ialgo", "ibrion", "icharg", "idipol", "images",
   "isif", "ismear", "ispin", "isym", "ivdw",
   "keyword_alist", "keywords",
   "kpts", "kpts_nintersections", "kspacing",
   "lcharg", "ldau", "ldau_luj", "ldauprint", "ldautype", "ldipol",
   "lmaxmix", "lorbit", "lreal", "lsol", "lvhar", "lvtot", "lwave",
   "magmom", "maxmix",
   "nbands", "ncore", "nelm", "nsim", "nsw", "nupdown",
   "potim", "pp", "prec", "reciprocal", "rwigs",
   "setups", "sigma", "spring", "xc"]

/-- Names reported by the helper `keywords()`: the function names with
only `'keywords'` removed (`names.remove('keywords')` removes the first
occurrence; `'keyword_alist'` is not removed). -/
def keywordsNames : List String := moduleFunctionNames.erase "keywords"

/-- A name wrapped in double quotes, as `'"{}"'.format(x)` produces. -/
def quoted (s : String) : String := "\"" ++ s ++ "\""

/-- Output string of the helper `keywords()`: the quoted names joined by
single spaces inside one pair of parentheses. -/
def keywords : String :=
  "(" ++ String.intercalate " " (keywordsNames.map quoted) ++ ")"

/-- Names reported by the helper `keyword_alist()`: the function names
with both `'keywords'` and `'keyword_alist'` removed.  (Its output string
pairs each name with the first line of the rule docstring; the claims
only concern the name list.) -/
def keywordAlistNames : List String :=
  (moduleFunctionNames.erase "keywords").erase "keyword_alist"

/-- Kind taxonomy of the spec (section 4.2): numeric, string, list,
mapping, boolean, extended with the kinds of `None` and ASE `Atoms`
values, which fall outside the five spec kinds. -/
inductive PyKind where
  | numeric
  | string
  | listK
  | mapping
  | boolean
  | noneK
  | atomsK
deriving DecidableEq, Repr

/-- Kind of an embedded value.  Following the spec taxonomy, booleans are
classified as boolean (not numeric), ints and floats as numeric. -/
def kindOf : Value → PyKind
  | .bool _ => .boolean
  | .int _ => .numeric
  | .float _ => .numeric
  | .str _ => .string
  | .list _ => .listK
  | .dict _ => .mapping
  | .atomsObj _ => .atomsK
  | .none => .noneK

/-- Expected value kind of each keyword, as declared in the docstring of
its rule in `validate.py` (the parenthesised type annotation), mapped to
the spec kind taxonomy. -/
def expectedKinds : String → List PyKind
  | "algo" => [.string]
  | "atoms" => [.atomsK, .listK]
  | "dipol" => [.listK]
  | "eb_k" => [.numeric]
  | "ediff" => [.numeric]
  | "ediffg" => [.numeric]
  | "efield" => [.numeric]
  | "encut" => [.numeric]
  | "gamma" => [.listK]
  | "gga" => [.string]
  | "ialgo" => [.numeric]
  | "ibrion" => [.numeric]
  | "icharg" => [.numeric]
  | "idipol" => [.numeric]
  | "images" => [.numeric]
  | "isif" => [.numeric]
  | "ismear" => [.numeric]
  | "ispin" => [.numeric]
  | "isym" => [.numeric]
  | "ivdw" => [.numeric]
  | "kpts" => [.listK]
  | "kpts_nintersections" => [.numeric]
  | "kspacing" => [.numeric]
  | "lcharg" => [.boolean]
  | "ldau" => [.boolean]
  | "ldau_luj" => [.mapping]
  | "ldauprint" => [.numeric]
  | "ldautype" => [.numeric]
  | "ldipol" => [.boolean]
  | "lmaxmix" => [.numeric]
  | "lorbit" => [.numeric]
  | "lreal" => [.boolean]
  | "lsol" => [.boolean]
  | "lvhar" => [.boolean]
  | "lvtot" => [.boolean]
  | "lwave" => [.boolean]
  | "magmom" => [.listK]
  | "maxmix" => [.numeric]
  | "nbands" => [.numeric]
  | "ncore" => [.numeric]
  | "nelm" => [.numeric]
  | "nsim" => [.numeric]
  | "nsw" => [.numeric]
  | "nupdown" => [.numeric]
  | "potim" => [.numeric]
  | "pp" => [.string]
  | "prec" => [.string]
  | "reciprocal" => [.boolean]
  | "rwigs" => [.mapping]
  | "setups" => [.listK]
  | "sigma" => [.numeric]
  | "spring" => [.numeric]
  | "xc" => [.string]
  | _ => []

/-- Wrong-kind probe value used for each keyword: a string for the rules
that expect something other than a string, the int 1 for the rules that
expect a string or a list or an Atoms object, and the int 7 for `lreal`
(which also admits certain strings). -/
def probeOf (name : String) : Value :=
  if ["algo", "atoms", "dipol", "gamma", "gga", "kpts",
      "pp", "prec", "xc"].contains name then .int 1
  else if name = "lreal" then .int 7
  else .str "x"

/-- Concrete context with no parameters and no atoms. -/
def c0 : Calc := ⟨[], [], [], 0⟩

/-- Concrete context with two atoms and a two-element magnetic-moment
list, as in the spec example for the spin-count rule. -/
def c2atoms : Calc :=
  ⟨[("magmom", Value.list [Value.float 1, Value.float 1])],
   [⟨"H"⟩, ⟨"H"⟩], [], 2⟩

lemma ok_vres (w : List String) (b : Bool) (m : String) (c : Calc) :
    (VOut.mk w (vres b m) c).ok? = b := by
  cases b <;> rfl

lemma pyEq_int_unique (v : Value) (a b : Int) (ha : pyEq v (Value.int a) = true)
    (hb : pyEq v (Value.int b) = true) : a = b := by
  cases v <;> simp [pyEq, toRat?] at ha hb ⊢ <;>
    exact_mod_cast ha.symm.trans hb

set_option maxRecDepth 10000 in
/-- C1: the helper `keywords()` does include the name `keyword_alist`
among the names it reports (only its own name `keywords` is removed), and
it lists every other function of the module exactly once.  This
contradicts the claim that `keyword_alist` is never included: the code
removes only `'keywords'`, while the sibling helper `keyword_alist()`
removes both names. -/
theorem keywords_lists_keyword_alist :
    keywordsNames.contains "keyword_alist" = true ∧
    keywordsNames.contains "keywords" = false ∧
    keywordsNames.count "keyword_alist" = 1 ∧
    (moduleFunctionNames.filter
      (fun n => n != "keywords" && n != "keyword_alist")).all
      (fun n => keywordsNames.count n == 1) = true ∧
    keywords =
      "(\"algo\" \"atoms\" \"dipol\" \"eb_k\" \"ediff\" \"ediffg\" \"efield\" \"encut\" \"gamma\" \"gga\" \"ialgo\" \"ibrion\" \"icharg\" \"idipol\" \"images\" \"isif\" \"ismear\" \"ispin\" \"isym\" \"ivdw\" \"keyword_alist\" \"kpts\" \"kpts_nintersections\" \"kspacing\" \"lcharg\" \"ldau\" \"ldau_luj\" \"ldauprint\" \"ldautype\" \"ldipol\" \"lmaxmix\" \"lorbit\" \"lreal\" \"lsol\" \"lvhar\" \"lvtot\" \"lwave\" \"magmom\" \"maxmix\" \"nbands\" \"ncore\" \"nelm\" \"nsim\" \"nsw\" \"nupdown\" \"potim\" \"pp\" \"prec\" \"reciprocal\" \"rwigs\" \"setups\" \"sigma\" \"spring\" \"xc\")" := by
  decide

/-- C9: the rule `ldautype` has an empty body (only a docstring), so it
accepts every value in every context and emits no advisory. -/
theorem ldautype_accepts_all :
    ∀ (c : Calc) (v : Value),
      (Validate.ldautype c v).ok? = true ∧
      (Validate.ldautype c v).warnings = [] :=
  fun _ _ => ⟨rfl, rfl⟩

/-- C10: the rules `ediff` and `ediffg` accept exactly the floats and the
values Python-equal to 0 (so the int 0 and the boolean False are
accepted), and reject every other value, in every context. -/
theorem ediff_ediffg_spec :
    ∀ (c : Calc) (v : Value),
      (Validate.ediff c v).ok? = (isinstance_float v || pyEq v (Value.int 0)) ∧
      (Validate.ediffg c v).ok? = (isinstance_float v || pyEq v (Value.int 0)) ∧
      (Validate.ediff c (Value.int 0)).ok? = true ∧
      (Validate.ediff c (Value.bool false)).ok? = true ∧
      (Validate.ediffg c (Value.int 0)).ok? = true ∧
      (Validate.ediffg c (Value.bool false)).ok? = true := by
  intro c v
  exact ⟨ok_vres _ _ _ _, ok_vres _ _ _ _, rfl, rfl, rfl, rfl⟩

/-- C5: the rule `ldau_luj` accepts a mapping value exactly when its key
count equals the number of distinct chemical species among the atoms of
the context. -/
theorem ldau_luj_spec :
    ∀ (c : Calc) (entries : List (String × Value)),
      (Validate.ldau_luj c (Value.dict entries)).ok? = true ↔
        entries.length = ((c.get_atoms.map Atom.symbol).dedup).length := by
  intro c entries
  simp [Validate.ldau_luj, ok_vres]

/-- C6: every rule of the registry leaves the context exactly as it found
it, whatever the value and whether it accepts or rejects. -/
theorem validators_preserve_context :
    ∀ p ∈ registry, ∀ (c : Calc) (v : Value),
      (p.2 c v).calcAfter = c := by
  intro p hp c v
  fin_cases hp <;> rfl

/-- C6 witness. -/
theorem validators_preserve_context_witness :
    (Validate.encut c0 (Value.float 520)).calcAfter = c0 :=
  validators_preserve_context ("encut", Validate.encut)
    (by simp [registry]) c0 (Value.float 520)

/-- C8: invoking a rule a second time on the context left by a first
invocation of the same (context, value) pair yields the identical
outcome: rule evaluation is a pure function of the pair, with no state
drift between calls. -/
theorem validators_idempotent :
    ∀ p ∈ registry, ∀ (c : Calc) (v : Value),
      p.2 ((p.2 c v).calcAfter) v = p.2 c v := by
  intro p hp c v
  fin_cases hp <;> rfl

/-- C8 witness. -/
theorem validators_idempotent_witness :
    Validate.ispin ((Validate.ispin c2atoms (Value.int 2)).calcAfter)
        (Value.int 2) =
      Validate.ispin c2atoms (Value.int 2) :=
  validators_idempotent ("ispin", Validate.ispin)
    (by simp [registry]) c2atoms (Value.int 2)

/-- C2: for the rule `ispin`, a value equal to 1 always succeeds; a value
equal to 2 succeeds exactly when the parameter `magmom` is present and
its Python length equals the atom count of the context; every value equal
to neither 1 nor 2 fails.  (Python equality is used, as the source tests
`val in [1, 2]` and `val == 2`, so for instance `True` counts as 1.) -/
theorem ispin_spec :
    ∀ (c : Calc) (v : Value),
      (pyEq v (Value.int 1) = true → (Validate.ispin c v).ok? = true) ∧
      (pyEq v (Value.int 2) = true →
        ((Validate.ispin c v).ok? = true ↔
          ∃ m, c.parameters.lookup "magmom" = some m ∧
            pyLen? m = some c.get_atoms.length)) ∧
      (pyEq v (Value.int 1) = false → pyEq v (Value.int 2) = false →
        (Validate.ispin c v).ok? = false) := by
  intro c v
  refine ⟨?_, ?_, ?_⟩
  · intro h1
    cases h2 : pyEq v (Value.int 2)
    · simp [Validate.ispin, VOut.ok?, pyMem, ints, h1, h2]
    · exact absurd (pyEq_int_unique v 1 2 h1 h2) (by decide)
  · intro h2
    simp only [Validate.ispin, pyMem, ints, List.map, List.any, h2,
      Bool.or_true, Bool.true_or, if_true]
    rcases hm : c.parameters.lookup "magmom" with _ | m
    · simp [hm, VOut.ok?]
    · rcases hl : pyLen? m with _ | n
      · simp [hm, hl, VOut.ok?]
      · by_cases hn : n = c.get_atoms.length <;>
          simp [hm, hl, VOut.ok?, vres, hn]
  · intro h1 h2
    simp [Validate.ispin, VOut.ok?, pyMem, ints, h1, h2]

/-- C2 witness: `ispin = 2` with `magmom = [1.0, 1.0]` and a two-atom
structure succeeds, as the spec example states. -/
theorem ispin_spec_witness :
    (Validate.ispin c2atoms (Value.int 2)).ok? = true :=
  ((ispin_spec c2atoms (Value.int 2)).2.1 (by decide)).mpr
    ⟨Value.list [Value.float 1, Value.float 1], rfl, rfl⟩

/-- C4: the rule `encut` fails for the value -5, succeeds for the value
520.0, and in general succeeds exactly when the value is greater than
zero (under the Python comparison, which raises on non-numbers) and is an
int or a float. -/
theorem encut_spec :
    ∀ (c : Calc) (v : Value),
      ((Validate.encut c v).ok? = true ↔
        (pyGt? v (Value.int 0) = some true ∧
          (isinstance_int v || isinstance_float v) = true)) ∧
      (Validate.encut c (Value.int (-5))).ok? = false ∧
      (Validate.encut c (Value.float 520)).ok? = true := by
  intro c v
  refine ⟨?_, rfl, rfl⟩
  rcases hg : pyGt? v (Value.int 0) with _ | b
  · simp [Validate.encut, hg, VOut.ok?]
  · cases b
    · simp [Validate.encut, hg, VOut.ok?]
    · cases hi : (isinstance_int v || isinstance_float v) <;>
        simp [Validate.encut, hg, hi, VOut.ok?, vres]

/-- C3 counterexample: the claim fails on the code: `ldautype` (whose
docstring declares an int) accepts the string value `"x"`, and `lcharg`
(a boolean keyword) accepts the numeric value 1, since `1 == True` in
Python. -/
theorem wrong_kind_accepted :
    (Validate.ldautype c0 (Value.str "x")).ok? = true ∧
    kindOf (Value.str "x") ∉ expectedKinds "ldautype" ∧
    (Validate.lcharg c0 (Value.int 1)).ok? = true ∧
    kindOf (Value.int 1) ∉ expectedKinds "lcharg" :=
  ⟨rfl, by decide, by decide, by decide⟩

/-- C3 amended: for every rule of the registry except `ldautype`, and in
every context, at least one value of the wrong kind fails validation
(witnessed uniformly by the probe values); `ldautype` performs no check
and accepts every value of every kind. -/
theorem wrong_kind_probe_fails :
    (∀ p ∈ registry, p.1 ≠ "ldautype" → ∀ (c : Calc),
      kindOf (probeOf p.1) ∉ expectedKinds p.1 ∧
      (p.2 c (probeOf p.1)).ok? = false) ∧
    (∀ (c : Calc) (v : Value), (Validate.ldautype c v).ok? = true) := by
  constructor
  · intro p hp hne c
    fin_cases hp <;>
      first
        | exact absurd rfl hne
        | exact ⟨by decide, rfl⟩
  · intro c v
    rfl

/-- C3 witness. -/
theorem wrong_kind_probe_fails_witness :
    kindOf (probeOf "algo") ∉ expectedKinds "algo" ∧
    (Validate.algo c0 (probeOf "algo")).ok? = false :=
  wrong_kind_probe_fails.1 ("algo", Validate.algo)
    (by simp [registry]) (by decide) c0

/-- C7 counterexample: the claim that only `ialgo` emits a non-fatal
advisory fails on the code: `spring`, on an int value with no `ibrion`
parameter set, both accepts the value and emits a warning. -/
theorem spring_emits_advisory :
    (Validate.spring c0 (Value.int 1)).warnings =
      ["ibrion should be 1 or 3."] ∧
    (Validate.spring c0 (Value.int 1)).ok? = true :=
  ⟨rfl, rfl⟩

/-- C7 amended: exactly two rules emit non-fatal advisories: `ialgo`
(always, advising use of `algo`) and `spring` (when the `ibrion`
parameter is not 1 or 3); no other rule ever emits one; and the
advisories never block the value: `ialgo` accepts exactly the ints in its
enumerated set, and `spring` accepts exactly the ints and floats. -/
theorem advisory_rules_spec :
    (∀ (c : Calc) (v : Value), (Validate.ialgo c v).warnings ≠ []) ∧
    (∀ p ∈ registry, p.1 ≠ "ialgo" → p.1 ≠ "spring" →
      ∀ (c : Calc) (v : Value), (p.2 c v).warnings = []) ∧
    (∃ (c : Calc) (v : Value), (Validate.spring c v).warnings ≠ []) ∧
    (∀ (c : Calc) (v : Value),
      (Validate.ialgo c v).ok? =
        (isinstance_int v &&
          pyMem v (ints [-1, 2, 3, 4, 5, 6, 7, 8,
                         15, 16, 17, 18, 28, 38,
                         44, 45, 46, 47, 48,
                         53, 54, 55, 56, 57, 58]))) ∧
    (∀ (c : Calc) (v : Value),
      (Validate.spring c v).ok? = (isinstance_int v || isinstance_float v)) := by
  refine ⟨?_, ?_, ?_, ?_, ?_⟩
  · intro c v
    simp [Validate.ialgo]
  · intro p hp h1 h2 c v
    fin_cases hp <;>
      first
        | rfl
        | exact absurd rfl h1
        | exact absurd rfl h2
  · exact ⟨c0, Value.int 1, by decide⟩
  · intro c v
    cases hi : isinstance_int v
    · simp [Validate.ialgo, hi, VOut.ok?]
    · cases hm : pyMem v (ints [-1, 2, 3, 4, 5, 6, 7, 8,
                                15, 16, 17, 18, 28, 38,
                                44, 45, 46, 47, 48,
                                53, 54, 55, 56, 57, 58]) <;>
        simp [Validate.ialgo, hi, hm, VOut.ok?, vres]
  · intro c v
    exact ok_vres _ _ _ _

/-- C7 witness. -/
theorem advisory_rules_spec_witness :
    (Validate.encut c0 (Value.int 5)).warnings = [] :=
  advisory_rules_spec.2.1 ("encut", Validate.encut)
    (by simp [registry]) (by decide) (by decide) c0 (Value.int 5)

end Vasp
